import Mathlib

/-!
Shallow embedding of `src/agent.py` (a LangGraph multi-agent MSW→RDF
pipeline definition) and proofs about it.

The file models, faithfully to the Python source:
  * the module's top-level statements and their evaluation (which names each
    statement references and binds, Python's NameError semantics for
    f-strings and unbound names);
  * the six agent prompt string literals, distinguishing plain string
    literals from f-strings, with their exact text;
  * the three `@tool` retrieval functions (`search_engine_openai`,
    `search_engine_duckduckgo`, `exa_search`) as functions of the outcome of
    their backend call;
  * the six `create_react_agent` specifications (engine, bound tools, name,
    prompt) and the list handed to `create_supervisor`;
  * the pydantic model `FuelComposition`.
-/

namespace MswRdf

/-- Errors a step of Python evaluation can raise: an unbound name
(`NameError`), the explicit `raise ValueError(...)` of the key guard, and a
propagated (re-raised) exception carrying its message. -/
inductive PyErr where
  | nameError (missing : String)
  | valueError (msg : String)
  | raised (msg : String)
deriving DecidableEq, Repr

/-- One segment of a Python f-string literal: a literal piece of text, or an
interpolation `\x7bx\x7d` of the name `x`. -/
inductive Seg where
  | lit (s : String)
  | interp (x : String)
deriving DecidableEq, Repr

/-- The names one segment evaluates (a literal evaluates none). -/
def Seg.refs : Seg → List String
  | .lit _ => []
  | .interp x => [x]

/-- The source text of one segment: an interpolation shows as its
brace-delimited placeholder, exactly as it stands in the source file. -/
def Seg.srcText : Seg → String
  | .lit s => s
  | .interp x => "\x7b" ++ x ++ "\x7d"

/-- A module-level prompt definition of src/agent.py: either a plain
(triple-quoted, non-f) string literal, or an f-string literal. -/
inductive PromptSrc where
  | plain (s : String)
  | fstring (segs : List Seg)
deriving DecidableEq, Repr

/-- Whether the prompt literal is an f-string. -/
def PromptSrc.isFString : PromptSrc → Bool
  | .plain _ => false
  | .fstring _ => true

/-- The names a prompt literal references when it is evaluated, in
left-to-right source order: a plain literal references none, an f-string
references each interpolated name. -/
def PromptSrc.refs : PromptSrc → List String
  | .plain _ => []
  | .fstring segs => segs.flatMap Seg.refs

/-- The text of the literal as it stands in the source file (interpolations
shown as their placeholders). -/
def PromptSrc.srcText : PromptSrc → String
  | .plain s => s
  | .fstring segs => String.join (segs.map Seg.srcText)

/-- Evaluate the segments of an f-string under an environment, with Python's
semantics: segments are evaluated left to right and the first interpolated
name the environment does not bind raises `NameError` for that name. -/
def evalSegs (env : String → Option String) : List Seg → Except PyErr String
  | [] => .ok ""
  | .lit s :: rest => (evalSegs env rest).map (fun t => s ++ t)
  | .interp x :: rest =>
      match env x with
      | none => .error (.nameError x)
      | some v => (evalSegs env rest).map (fun t => v ++ t)

/-- Evaluate a prompt literal under an environment: a plain literal is its
own text and never fails; an f-string interpolates and can raise
`NameError`. -/
def PromptSrc.eval (p : PromptSrc) (env : String → Option String) :
    Except PyErr String :=
  match p with
  | .plain s => .ok s
  | .fstring segs => evalSegs env segs

/-- Whether `pat` is a prefix-at-some-position of `l`: a contiguous
occurrence of `pat` inside `l`. -/
def isInfixOfChars (pat : List Char) : List Char → Bool
  | [] => pat.isEmpty
  | c :: tl => pat.isPrefixOf (c :: tl) || isInfixOfChars pat tl

/-- Whether `pat` occurs in `s` as a contiguous substring, decided on the
underlying character lists. -/
def containsSub (s pat : String) : Bool :=
  isInfixOfChars pat.data s.data

/-- An occurrence of `pat` in `r` is an occurrence of `pat` in `a ++ r`. -/
theorem isInfixOfChars_extend_left (pat : List Char) :
    ∀ (a r : List Char), isInfixOfChars pat r = true →
      isInfixOfChars pat (a ++ r) = true := by
  intro a
  induction a with
  | nil => intro r h; exact h
  | cons c tl ih =>
    intro r h
    show (pat.isPrefixOf (c :: (tl ++ r)) || isInfixOfChars pat (tl ++ r))
      = true
    rw [ih r h, Bool.or_true]

/-- A substring of `b` is a substring of `a ++ b`. -/
theorem containsSub_append_of_right (a b pat : String)
    (h : containsSub b pat = true) : containsSub (a ++ b) pat = true := by
  obtain ⟨as⟩ := a
  obtain ⟨bs⟩ := b
  exact isInfixOfChars_extend_left pat.data as bs h

/-- Literal segment 1 of the f-string bound to `sorting_supervisor_prompt` in src/agent.py. -/
def sorting_supervisor_prompt_seg1 : String :=
  "\nRole: As a highly experienced Sorting Supervisor specializing in municipal solid waste (MSW) processing, your primary responsibility is to identify and remove large, non-processable items from MSW at a processing plant in "

/-- Literal segment 2 of the f-string bound to `sorting_supervisor_prompt` in src/agent.py. -/
def sorting_supervisor_prompt_seg2 : String :=
  ". Your tasks include:\n\nInstructions: - Research and understand the process of removing large, non-processable items from MSW in "

/-- Literal segment 3 of the f-string bound to `sorting_supervisor_prompt` in src/agent.py. -/
def sorting_supervisor_prompt_seg3 : String :=
  ", utilizing available tools to gather detailed insights.\n - Analyze a provided MSW composition profile, including the percentage of each material category, and determine the proportion of large, non-processable waste within the specified categories, based on "

/-- Literal segment 4 of the f-string bound to `sorting_supervisor_prompt` in src/agent.py. -/
def sorting_supervisor_prompt_seg4 : String :=
  "-specific data.\n - Adjust the waste composition by reducing the percentage of the relevant category to account for the removal of large, non-processable items, ensuring only appropriate components are removed as per the process.\n\nTools: You have access to the following tools:\n - **search_engine_openai**: For searching and retrieving information from OpenAI's web search tool.\n - **search_engine_duckduckgo**: For searching and retrieving information from DuckDuckGo's search engine.\n - **exa_search**: For searching and retrieving information from Exa's search engine.\n\n**Mandatory Tool Usage**: For all data related to "

/-- Literal segment 5 of the f-string bound to `sorting_supervisor_prompt` in src/agent.py. -/
def sorting_supervisor_prompt_seg5 : String :=
  "'s MSW, including the percentage of non-processable waste, categories of large non-processable items, and the removal process, you MUST use the provided tools to fetch the most recent and accurate information. Do not rely solely on internal knowledge.\n- The % of non processable waste in "

/-- Literal segment 6 of the f-string bound to `sorting_supervisor_prompt` in src/agent.py. -/
def sorting_supervisor_prompt_seg6 : String :=
  "'s Municipal Solid Waste.\n- What are the different large non-processable items that are typically removed from MSW.\n- Also the categories from where we can remove these items.\n- The source links should also be returned along with the information.\n\nOutput: Provide a comprehensive explanation of:\n - The process for removing large, non-processable items.\n - The specific components removed, including the rationale for their removal.\n - The final waste composition after removal, ensuring all listed components are considered and no components are removed unless specified by the process.\n - Recalculate the new waste composition, expressing each component as a percentage and normalizing the total to 100%.\n - Use provided tools to access detailed information on waste composition, the percentage of large, non-processable waste in "

/-- Literal segment 7 of the f-string bound to `sorting_supervisor_prompt` in src/agent.py. -/
def sorting_supervisor_prompt_seg7 : String :=
  ", and the removal process, ensuring accuracy and relevance to the local context.\n - Ensure that your analysis is based on credible data for "

/-- Literal segment 8 of the f-string bound to `sorting_supervisor_prompt` in src/agent.py. -/
def sorting_supervisor_prompt_seg8 : String :=
  " and that the removal process adheres strictly to the guidelines for large, non-processable items, avoiding any unintended removal of processable components.\n - Ignore any component that is 0% in the original waste composition.\n\nNOTE: - No waste category is considered for recycling or composting in this task. The focus is solely on the removal of large, non-processable items from the waste stream.\n - Always normalize the new waste composition to 100% after adjustments.\n - You are only bound to remove large, non-processable items from the waste composition. Do not remove any other components.\n - If you are removing certain percentage of a component from the waste composition, please mention the percentage removed and Make sure the new waste composition is accurate and normalized to 100%.\n"



/-- The f-string literal bound to `sorting_supervisor_prompt` in src/agent.py, as its
literal/interpolation segments in source order. -/
def sorting_supervisor_prompt_segs : List Seg :=
  [.lit sorting_supervisor_prompt_seg1,
   .interp "place",
   .lit sorting_supervisor_prompt_seg2,
   .interp "place",
   .lit sorting_supervisor_prompt_seg3,
   .interp "place",
   .lit sorting_supervisor_prompt_seg4,
   .interp "place",
   .lit sorting_supervisor_prompt_seg5,
   .interp "place",
   .lit sorting_supervisor_prompt_seg6,
   .interp "place",
   .lit sorting_supervisor_prompt_seg7,
   .interp "place",
   .lit sorting_supervisor_prompt_seg8]

/-- Definition `sorting_supervisor_prompt` of src/agent.py: an f-string literal. -/
def sorting_supervisor_prompt : PromptSrc := .fstring sorting_supervisor_prompt_segs

/-- The text of the plain string literal bound to `sorting_engineer_prompt` in
src/agent.py, up to its `**Mandatory Tool Usage**` section. -/
def sorting_engineer_prompt_part1 : String :=
  "\nRole: - As a mechanical sorting engineer specializing in refuse-derived fuel (RDF) production from municipal solid waste (MSW), your expertise involves operating advanced sorting equipment, including magnets for ferrous metals, eddy current separators for non-ferrous metals, glass removal systems, and aggregate/rock removal systems. You are provided with an MSW composition profile detailing the percentage of each material category.\n\nInstructions: - Mechanical sorting is a critical step in the RDF production process, where the goal is to remove unwanted materials from the waste stream to produce a high-quality RDF product.\n - In Mechanical sorting, we focus on removing non-processable items, that is metals, glass, and aggregates, which can interfere with the RDF production process.\n - Most of the metal components (few fine metallic might still remain) are removed in the first step of the process, while glass and aggregates are removed in the second step.\n - Utilize available tools to analyze the provided waste composition and the RDF production process, evaluating how mechanical sorting affects the composition.\n\nTools: You have access to the following tools:\n - **search_engine_openai**: For searching and retrieving information from OpenAI's web search tool.\n - **search_engine_duckduckgo**: For searching and retrieving information from DuckDuckGo's search engine.\n - **exa_search**: For searching and retrieving information from Exa's search engine.\n\n"

/-- The text of the plain string literal bound to `sorting_engineer_prompt` in
src/agent.py, from its `**Mandatory Tool Usage**` section on. -/
def sorting_engineer_prompt_part2 : String :=
  "**Mandatory Tool Usage**: For all data related to {place}'s MSW you MUST use the provided tools to fetch the most recent and accurate information. Do not rely solely on internal knowledge.\n- To understand to precision of removal of glass and metal removal using the seperation process of mechincal sorting.\n- Understand the composition and see what compositions can contain metals, glass and aggregates.\n\nOutput: Calculate the waste composition after mechanical sorting and RDF production, delivering:\n - A clear, detailed explanation of the mechanical sorting process, including the equipment used and the sequence of operations.\n - A list of specific components removed, with a rationale for their removal based on the sorting process and RDF production requirements.\n - The final waste composition, ensuring all listed components are accounted for and only components specified by the process are removed.\n - If exact composition data is unavailable, select the closest available composition, providing a justification for your choice.\n - Recalculate the new waste composition, presenting each component as a percentage and normalizing the total to 100%.\n\nNote: - Verify that no components are removed unless explicitly required by the mechanical sorting and RDF production process, using tools to ensure accuracy and relevance.\n - Present the final waste composition in a structured format (e.g., a table or dictionary), including the percentage of each material and a summary of the total.\n - Ensure all analyses are supported by detailed insights from provided tools, maintaining precision and adherence to the mechanical sorting process specific to RDF production.\n - Remove components that the mechanical sorting process is supposed to remove, including metals, glass, and aggregates.\n - Make sure the new waste composition is accurate and normalized to 100%.\n"

/-- The full text of the plain string literal bound to `sorting_engineer_prompt`
in src/agent.py: the two parts above, concatenated. -/
def sorting_engineer_prompt_text : String := sorting_engineer_prompt_part1 ++ sorting_engineer_prompt_part2

/-- Definition `sorting_engineer_prompt` of src/agent.py: a plain string literal (not an f-string). -/
def sorting_engineer_prompt : PromptSrc := .plain sorting_engineer_prompt_text

/-- The text of the plain string literal bound to `chlorine_reduction_specialist_prompt` in
src/agent.py, up to its `**Mandatory Tool Usage**` section. -/
def chlorine_reduction_specialist_prompt_part1 : String :=
  "\nRole: Lets do a role play where you are a Chlorine Reduction Specialist, tasked with reducing chlorine content in RDF.\n\n\nInstructions: - The Chlorine Specialist uses provided tools to validate efficacy assumptions, predict chlorine content reduction, and ensure the RDF stream meets low-chlorine specifications.\n\n - It refines the waste stream from the Sorting Engineer for downstream processing.\n - Your main tasks include:\n\n   1. **Analyze the Waste Stream**: Review the waste stream composition provided by the Sorting Engineer, focusing on chlorine content and its impact on RDF quality.\n   2. **Assess Chlorine Content**: Use the tools to determine the chlorine content in the waste stream, particularly focusing on the plastic category and any other relevant categories.\n\nTools: You have access to the following tools:\n - **search_engine_openai**: For searching and retrieving information from OpenAI's web search tool.\n - **search_engine_duckduckgo**: For searching and retrieving information from DuckDuckGo's search engine.\n - **exa_search**: For searching and retrieving information from Exa's search engine.\n\n"

/-- The text of the plain string literal bound to `chlorine_reduction_specialist_prompt` in
src/agent.py, from its `**Mandatory Tool Usage**` section on. -/
def chlorine_reduction_specialist_prompt_part2 : String :=
  "**Mandatory Tool Usage**: For all data related to {place}'s MSW you MUST use the provided tools to fetch the most recent and accurate information. Do not rely solely on internal knowledge.\n - The % of PVC available in the plastic category.\n - If any other category has chlorine content.\n\nNote: - The source links should also be returned along with the information.\n - Make sure the new waste composition is accurate and normalized to 100%.\n"

/-- The full text of the plain string literal bound to `chlorine_reduction_specialist_prompt`
in src/agent.py: the two parts above, concatenated. -/
def chlorine_reduction_specialist_prompt_text : String := chlorine_reduction_specialist_prompt_part1 ++ chlorine_reduction_specialist_prompt_part2

/-- Definition `chlorine_reduction_specialist_prompt` of src/agent.py: a plain string literal (not an f-string). -/
def chlorine_reduction_specialist_prompt : PromptSrc := .plain chlorine_reduction_specialist_prompt_text

/-- The text of the plain string literal bound to `shredding_purification_technician_prompt` in
src/agent.py, up to its `**Mandatory Tool Usage**` section. -/
def shredding_purification_technician_prompt_part1 : String :=
  "\nRole: - You are a Shredding and purification technician, responsible for shredding and fine metal removal in PDF fluff production.\n\nInstruction: - Research and understand the composition of the waste and what would be the new composition after shredding and removing fine metals from the composition.\n - Provide a comprehensive explanation of:\n   a. The process done for shredding and fine metal removal (Ferrous and non ferrous).\n   b. The specific components removed, including the rationale for their removal.\n - The final waste composition after removal, ensuring all listed components are considered and no components are removed unless specified by the process.\n\nTools: You have access to the following tools:\n - **search_engine_openai**: For searching and retrieving information from OpenAI's web search tool.\n - **search_engine_duckduckgo**: For searching and retrieving information from DuckDuckGo's search engine.\n - **exa_search**: For searching and retrieving information from Exa's search engine.\n\n"

/-- The text of the plain string literal bound to `shredding_purification_technician_prompt` in
src/agent.py, from its `**Mandatory Tool Usage**` section on. -/
def shredding_purification_technician_prompt_part2 : String :=
  "**Mandatory Tool Usage**: For all data related to {place}'s MSW you MUST use the provided tools to fetch the most recent and accurate information. Do not rely solely on internal knowledge.\n - Use provided tools to access detailed information on waste composition, the percentage of fine metal present in waste composition in {place}, and the removal process, ensuring accuracy and relevance to the local context.\n - If any other category has chlorine content.\n\nOutput: - Recalculate the new waste composition, expressing each component as a percentage and normalizing the total to 100%.\n\nNote:\n - Ensure that your analysis is based on credible data for {place} and that the removal process adheres strictly to the guidelines for fine metal removal, avoiding any unintended removal of processable components.\n - You'll only remove components only if they are specified by the process and exist in the waste composition.\n - Make sure the new waste composition is accurate and normalized to 100%.\n"

/-- The full text of the plain string literal bound to `shredding_purification_technician_prompt`
in src/agent.py: the two parts above, concatenated. -/
def shredding_purification_technician_prompt_text : String := shredding_purification_technician_prompt_part1 ++ shredding_purification_technician_prompt_part2

/-- Definition `shredding_purification_technician_prompt` of src/agent.py: a plain string literal (not an f-string). -/
def shredding_purification_technician_prompt : PromptSrc := .plain shredding_purification_technician_prompt_text

/-- Literal segment 1 of the f-string bound to `R4_process_engineer_prompt` in src/agent.py. -/
def R4_process_engineer_prompt_seg1 : String :=
  "\nRole: You are an higly experienced R4 Process Engineer with 10 years of experience handling R4 Machines.\n\nThe R4 Machine is a specialized piece of equipment used in the recycling industry, particularly for processing waste materials.\n\nIt converts RDF (Refuse-Derived Fuel) into a solid fuel product that can be used in various applications, including making solid engineered fuel using Refuse-Derived Fuel (RDF).\n\nInstruction: The sub processes in the R4 Machines are as follows:\n 1) This process involves removing moisture from the RDF material before it enters the R4 machine. The vacuum environment helps to evaporate water at lower temperatures.\n    Evacuate the chamber to "

/-- Literal segment 2 of the f-string bound to `R4_process_engineer_prompt` in src/agent.py. -/
def R4_process_engineer_prompt_seg2 : String :=
  " torr and heat the material to 120-140°C. This process is helps evaporate free and bound water and reduce the moisture to below 10%.\n\n 2) Dynamic Organic Repolymerization: This process involves the use of heat and pressure to break down the organic materials in the RDF, converting them into a more stable and energy-dense form.\n    Below are the steps involved in this process:\n\n      a) Raise Jacket temperature to "

/-- Literal segment 3 of the f-string bound to `R4_process_engineer_prompt` in src/agent.py. -/
def R4_process_engineer_prompt_seg3 : String :=
  "°C (capable of 260°C) via oil heated jacket.\n      b) The RDF core mass reaches "

/-- Literal segment 4 of the f-string bound to `R4_process_engineer_prompt` in src/agent.py. -/
def R4_process_engineer_prompt_seg4 : String :=
  "°C (capable of 260°C) over "

/-- Literal segment 5 of the f-string bound to `R4_process_engineer_prompt` in src/agent.py. -/
def R4_process_engineer_prompt_seg5 : String :=
  " seconds. A good amount of remaining moisture is vaporised from the RDF in this process.\n 3) As the temperature increases, different materials in the RDF will begin to break down and release gases. Like light hydrocarbons and gases. If there are PVC plastic in the RDF, they will start to decompose and release HCl gas.\n    Common plastics like polyethylene, polypropylene, polystyrene soften and melt at these temperatures. These become gooey and sticky, which help the RDF to bind together.\n The heat in R4 Machines breakdown chemical bonds, creating free radicals(highly reactive molecules). Plastics and other organic materials in the RDF can react with these free radicals to form new hydrocarbon-rich chains. This forms a durable, waterproof and hydrocarbon-rich solid fuel.\n The R4 machines continuously mixes the RDF material to ensure even heating. Also plastic coat and encapasulate fibrous materials like paper, cardboard, wood, etc, which helps to improve the overall quality of the output product.\n These are the basic steps involved in the dynamic organic repolymerization process. The specific parameters and conditions may vary depending on the type of RDF being processed and the desired properties of the output product.\n\n You need to have an understanding of the chemical and physical properties of the materials being processed, as well as the principles of thermodynamics and reaction kinetics.\n\n You must be able to tell what the results would be if the parameters are changed. For example, if the temperature is increased or decreased, what would be the effect on the output product?\n\n Also, return a detailed explanation of how the values of the properties are calculated based on the process and the composition of the RDF.\n\n All process done in the R4 machine should be mentioned in details and how each factor was considered in the process before the final output is produced.\n\n\nTools: You have access to the following tools:\n - **search_engine_openai**: For searching and retrieving information from OpenAI's web search tool.\n - **search_engine_duckduckgo**: For searching and retrieving information from DuckDuckGo's search engine.\n - **exa_search**: For searching and retrieving information from Exa's search engine.\n\n**Mandatory Tool Usage**: For all data related to "

/-- Literal segment 6 of the f-string bound to `R4_process_engineer_prompt` in src/agent.py. -/
def R4_process_engineer_prompt_seg6 : String :=
  "'s MSW you MUST use the provided tools to fetch the most recent and accurate information. Do not rely solely on internal knowledge.\n - Use provided tools to access detailed information about the properties of solid fuels, including moisture content, chlorine content, ash content, calorific value, bulk density, chlorine/sulfur content, and particle size uniformity.\n\nOutput: The final property and its value should be in a table format with three columns (properties, value, description) the following rows:\n            1) Moisture:\n\n            2) Chlorine (Cl):\n\n            3) Ash Content:\n\n            4) Calorific value (in MJ/kg):\n\n            5) particle size uniformity:\n\n\nNote: - The output doughy and sticky, make sure you do the prediction for the fuel properties based on the current form of the fuel.\n- Never do any task that is not assigned to you or you are not supposed to do.\n- Water bath process is not part of the R4 machine process.\n- The final properties of the solid fuel but be quantified based on the final waste composition and the process it has undergone.\n- Make sure you do the task assigned to you and do not do the task of other agents.\n- Do not assume any process. The process is already defined in the prompt.\n- Provide links to the sources of information used in the process.\n"

/-- The f-string literal bound to `R4_process_engineer_prompt` in src/agent.py, as its
literal/interpolation segments in source order. -/
def R4_process_engineer_prompt_segs : List Seg :=
  [.lit R4_process_engineer_prompt_seg1,
   .interp "r4_negative_pressure",
   .lit R4_process_engineer_prompt_seg2,
   .interp "r4_temperature",
   .lit R4_process_engineer_prompt_seg3,
   .interp "r4_temperature",
   .lit R4_process_engineer_prompt_seg4,
   .interp "r4_retention_time",
   .lit R4_process_engineer_prompt_seg5,
   .interp "place",
   .lit R4_process_engineer_prompt_seg6]

/-- Definition `R4_process_engineer_prompt` of src/agent.py: an f-string literal. -/
def R4_process_engineer_prompt : PromptSrc := .fstring R4_process_engineer_prompt_segs

/-- The text of the plain string literal bound to `water_bath_process_engineer_prompt` in
src/agent.py, up to its `**Mandatory Tool Usage**` section. -/
def water_bath_process_engineer_prompt_part1 : String :=
  "\nRole: You are a higly experienced Water bath Process Engineer with expertise in understanding the process of water bath and how the properties of fuel chunks change after they pass through the water bath conveyor.\n\n\nInstruction:\n* Process Description:\n - The sticky dough fuel product is extruded though a heated die head to 2\"x2\" chunks. These chunks have a coating of plastic on it making it less prone to damage when introduced to water bath process.\n - The chunks are dropped into a water bath conveyor, where they are cooled, solidified and surface chlorine is removed.\n - The water bath is typically maintained at a temperature less than 60°C (122-140°F) for a duration of less than 5 minutes to ensure proper cooling happens and the surface chlorine is removed.\n - The water bath process is crucial for ensuring the quality and safety of the final product, as it helps to remove any residual chlorine and solidify the fuel chunks.\n* Your task is to:\n 1. Research and understand the water bath process, including its purpose, parameters, and effects on the final product.\n 2. Analyze the provided fuel property of the material output from R4 machine and determine how the fuel property would be affected after cutting it into 2\"x2\" chunks and passing it through the water bath conveyor.\n 3. Calculate the new fuel property composition after the water bath process, delivering:\n     - A clear, detailed explanation of the water bath process, including the sequence of operations.\n     - A list of specific fuel property changes, with a rationale for their removal based on the water bath process requirements.\n     - The final fuel composition, ensuring all listed components are accounted for and only components specified by the process are removed.\n 4. Verify that no components or changed that are removed unless explicitly required by the water bath process, using tools to ensure accuracy and relevance.\n 5. Calulcate how cutting the fuel into 2\"x2\" chunks affects the fuel property composition like how much will the bulk density affect and how much will the calorific value increase by with explantion.\n 6. The final fuel property composition in a structured format (e.g., a table or dictionary), including a summary of the properties.\n    Ensure all analyses are supported by detailed insights from provided tools, maintaining precision and adherence to the water bath process specific to RDF production.\n\nOutput: Provide a comprehensive explanation of: Tools: You have access to the following tools:\n - **search_engine_openai**: For searching and retrieving information from OpenAI's web search tool.\n - **search_engine_duckduckgo**: For searching and retrieving information from DuckDuckGo's search engine.\n - **exa_search**: For searching and retrieving information from Exa's search engine.\n\n"

/-- The text of the plain string literal bound to `water_bath_process_engineer_prompt` in
src/agent.py, from its `**Mandatory Tool Usage**` section on. -/
def water_bath_process_engineer_prompt_part2 : String :=
  "**Mandatory Tool Usage**: For all data related to {place}'s MSW you MUST use the provided tools to fetch the most recent and accurate information. Do not rely solely on internal knowledge.\n - Use provided tools to understand how the water bath process affects the fuel properties, including moisture content, chlorine content, ash content, calorific value, bulk density, chlorine/sulfur content, and particle size uniformity.\n   - The process done for water bath.\n   - The specific components removed, including the rationale for their removal.\n   - The final fuel composition after removal, ensuring all listed components are considered and no components are removed unless specified by the process.\n   -  Also, return a detailed explanation of how the values of the properties are calculated based on the process and the composition of the RDF.\n\nNote: - From the doughy product extruded into 2\"x2\" chunks, it is important to understand how the water bath process affects the final product.\n - Make sure the output is in a quantified format, like a table or dictionary.\n"

/-- The full text of the plain string literal bound to `water_bath_process_engineer_prompt`
in src/agent.py: the two parts above, concatenated. -/
def water_bath_process_engineer_prompt_text : String := water_bath_process_engineer_prompt_part1 ++ water_bath_process_engineer_prompt_part2

/-- Definition `water_bath_process_engineer_prompt` of src/agent.py: a plain string literal (not an f-string). -/
def water_bath_process_engineer_prompt : PromptSrc := .plain water_bath_process_engineer_prompt_text

/-- The text of the plain string literal bound to `process_engineer_prompt` in src/agent.py. -/
def process_engineer_prompt_text : String :=
  "\nRole: As a process engineer with over 20 years of expertise in waste management, your role is to oversee the processing of municipal solid waste (MSW) to produce refuse-derived fuel (RDF). You are provided with a waste composition profile, including the percentage of each material category. Your task is to manage the waste processing workflow by coordinating with different specialized agents:\n\nAgents available: \n - Sorting Supervisor Agent: This agent analyzes the MSW composition to identify and remove large, non-processable items, providing an updated composition after their removal.\n - Sorting Engineer Agent: This agent processes the composition received from the Sorting Supervisor Agent, evaluating the waste composition and applying the RDF production process to further refine it.\n - Chlorine-Reduction Specialist Agent: This agent focuses on reducing chlorine content in the RDF stream, ensuring it meets low-chlorine specifications.\n - Shredding and Purification Technician Agent: This agent is responsible for shredding the RDF material and removing fine metals, ensuring the final product is suitable for downstream processing.\n - R4 Process Engineer Agent: This agent operates the R4 machine, converting RDF into a solid fuel product through dynamic organic repolymerization.\n - Water Bath Process Engineer Agent: This agent manages the water bath process, cooling and solidifying the RDF product while removing surface chlorine.\n\nInstructions:\n - Supervising the sequential processing of the waste composition only through agents mentioned in the workflow.\n - Ensuring that each agent executes their specific task in the correct order, providing the detailed steps taken for the input and output for each step. \n - Decisions should never be made by internal knowledge alone; always use the provided tools to gather accurate and relevant information for each step of the process.\n - Run only the agents that have **yes** in front of them, and skip the ones with **no** in front of them.\n\nOutput:\n - Providing a detailed explanation of each process, the components removed, the rationale for their removal, and the final waste composition.\n - Ensuring all components in the provided composition are considered, with only the appropriate components removed as per each process.\n - Recalculating the final waste composition, expressing each component as a percentage and normalizing the total to 100%.\n\nNote: - Ensure that the processes are executed accurately, with clear coordination between agents, and that the final composition reflects the combined effects of removing non-processable items and applying RDF production, without removing any components not specified by the respective processes.\n- Do not instruct the Agents on how to do a particular task. The sequence of each agent executing will be controlled by you and also the correct input and output is taken care by you.\n- Make sure you run all the agents that have **yes** in front of them and dont ignore the approved (yes) agents\n\n- You are only bound to run the agents that have **yes** in front of them and skip the ones with **no** in front of them.\n- Never do any task that is not assigned to you. You are ibky assigned to oversee the process and ensure that the agents execute their tasks correctly.\n\n\n"

/-- Definition `process_engineer_prompt` of src/agent.py: a plain string literal (not an f-string). -/
def process_engineer_prompt : PromptSrc := .plain process_engineer_prompt_text


/-! ### Module-level statements of src/agent.py

Python evaluates a module top to bottom; a statement that references an
unbound name raises `NameError` and aborts the module load. Each statement
below records, in source order, the names its evaluation references (in
Python's left-to-right evaluation order) and the name it binds. -/

/-- A top-level statement of src/agent.py, as module evaluation sees it. -/
inductive Stmt where
  /-- An import statement: binds the imported names. -/
  | imports (names : List String)
  /-- An assignment, `def` or `class` statement: evaluates `refs` in order,
  then binds `target` (a decorated `def` references its decorator, a `class`
  its bases; neither evaluates its body at definition time). -/
  | assign (target : String) (refs : List String)
  /-- The guard at src/agent.py lines 21-23: when `OPENAI_API_KEY` is unset
  it evaluates `logger.error(...)` and then raises `ValueError`; when set it
  does nothing. -/
  | guardNoKey
  /-- A bare expression statement: evaluates `refs`, binds nothing. -/
  | expr (refs : List String)
deriving Repr

/-- The environment of names the module has bound so far. -/
abbrev Env := List String

/-- The first of `refs` the environment does not bind, if any: the name whose
lookup raises `NameError` first. -/
def firstUnbound (env : Env) : List String → Option String
  | [] => none
  | r :: rest => if r ∈ env then firstUnbound env rest else some r

/-- Evaluate one statement. `keySet` says whether the environment variable
`OPENAI_API_KEY` is set. -/
def evalStmt (keySet : Bool) (env : Env) : Stmt → Except PyErr Env
  | .imports names => .ok (names ++ env)
  | .assign target refs =>
      match firstUnbound env refs with
      | some r => .error (.nameError r)
      | none => .ok (target :: env)
  | .guardNoKey =>
      if keySet then .ok env
      else if "logger" ∈ env then
        .error (.valueError "OPENAI_API_KEY environment variable is not set")
      else .error (.nameError "logger")
  | .expr refs =>
      match firstUnbound env refs with
      | some r => .error (.nameError r)
      | none => .ok env

/-- The name a statement binds (none for the guard and bare expressions). -/
def Stmt.binds : Stmt → List String
  | .imports names => names
  | .assign target _ => [target]
  | .guardNoKey => []
  | .expr _ => []

/-- The top-level statements of src/agent.py, in source order. -/
def agentModule : List Stmt :=
  [ -- lines 1-16: the imports
    .imports ["os"],
    .imports ["logging"],
    .imports ["FastAPI", "HTTPException", "status"],
    .imports ["CORSMiddleware"],
    .imports ["BaseModel"],
    .imports ["Dict", "Literal"],
    .imports ["uvicorn"],
    .imports ["ChatOpenAI"],
    .imports ["create_react_agent"],
    .imports ["create_supervisor"],
    .imports ["OpenAI"],
    .imports ["tool"],
    .imports ["DuckDuckGoSearchRun"],
    .imports ["LangSmithClient"],
    .imports ["traceable"],
    .imports ["wrap_openai"],
    -- line 20: openai_key = os.environ.get("OPENAI_API_KEY")
    .assign "openai_key" ["os"],
    -- lines 21-23: if not openai_key: logger.error(...); raise ValueError(...)
    .guardNoKey,
    -- lines 25-32: llm = ChatOpenAI(openai_api_key=openai_key, ...)
    .assign "llm" ["ChatOpenAI", "openai_key"],
    -- lines 34-37: llm_o3 = ChatOpenAI(openai_api_key=openai_key, model="o3")
    .assign "llm_o3" ["ChatOpenAI", "openai_key"],
    -- line 39: client = OpenAI(api_key=openai_key)
    .assign "client" ["OpenAI", "openai_key"],
    -- lines 42-47: class FuelComposition(BaseModel)
    .assign "FuelComposition" ["BaseModel"],
    -- lines 51-71, 73-90, 92-122: the three @tool functions
    .assign "search_engine_openai" ["tool"],
    .assign "search_engine_duckduckgo" ["tool"],
    .assign "exa_search" ["tool"],
    -- lines 126-157: sorting_supervisor_prompt = f"""...""" (interpolates place)
    .assign "sorting_supervisor_prompt" sorting_supervisor_prompt.refs,
    -- lines 158-163
    .assign "sorting_supervisor_agent"
      ["create_react_agent", "llm", "search_engine_duckduckgo", "exa_search",
       "search_engine_openai", "sorting_supervisor_prompt"],
    -- lines 166-195: a plain string literal
    .assign "sorting_engineer_prompt" sorting_engineer_prompt.refs,
    -- lines 196-201
    .assign "sorting_engineer_agent"
      ["create_react_agent", "llm", "search_engine_duckduckgo", "exa_search",
       "search_engine_openai", "sorting_engineer_prompt"],
    -- lines 204-224: a plain string literal
    .assign "chlorine_reduction_specialist_prompt"
      chlorine_reduction_specialist_prompt.refs,
    -- lines 225-230
    .assign "chlorine_reduction_specialist_agent"
      ["create_react_agent", "llm", "search_engine_duckduckgo", "exa_search",
       "search_engine_openai", "chlorine_reduction_specialist_prompt"],
    -- lines 233-257: a plain string literal
    .assign "shredding_purification_technician_prompt"
      shredding_purification_technician_prompt.refs,
    -- lines 258-263
    .assign "shredding_purification_technician_agent"
      ["create_react_agent", "llm", "search_engine_duckduckgo", "exa_search",
       "search_engine_openai", "shredding_purification_technician_prompt"],
    -- lines 266-310: R4_process_engineer_prompt = f"""...""" (interpolates
    -- r4_negative_pressure, r4_temperature twice, r4_retention_time, place)
    .assign "R4_process_engineer_prompt" R4_process_engineer_prompt.refs,
    -- lines 311-316
    .assign "R4_process_engineer_agent"
      ["create_react_agent", "llm_o3", "search_engine_openai",
       "R4_process_engineer_prompt"],
    -- lines 319-353: a plain string literal
    .assign "water_bath_process_engineer_prompt"
      water_bath_process_engineer_prompt.refs,
    -- lines 354-359
    .assign "water_bath_process_engineer_agent"
      ["create_react_agent", "llm_o3", "search_engine_openai",
       "search_engine_duckduckgo", "exa_search",
       "water_bath_process_engineer_prompt"],
    -- lines 362-390: a plain string literal
    .assign "process_engineer_prompt" process_engineer_prompt.refs,
    -- line 391: logger.info("Creating process engineer workflow")
    .expr ["logger"],
    -- lines 392-398
    .assign "process_engineer_workflow"
      ["create_supervisor", "sorting_engineer_agent", "sorting_supervisor_agent",
       "chlorine_reduction_specialist_agent",
       "shredding_purification_technician_agent", "R4_process_engineer_agent",
       "water_bath_process_engineer_agent", "llm_o3", "process_engineer_prompt"],
    -- line 401: logger.info("Compiling process engineer workflow")
    .expr ["logger"],
    -- line 402: app_workflow = process_engineer_workflow.compile()
    .assign "app_workflow" ["process_engineer_workflow"]]

/-- Evaluate the whole module, statement by statement, starting from an empty
environment: the environment after a successful load, or the error that
aborted it. -/
def evalModule (keySet : Bool) : Except PyErr Env :=
  agentModule.foldlM (evalStmt keySet) []

/-- Every name any statement of the module binds. -/
def moduleBinds : List String :=
  agentModule.flatMap Stmt.binds


/-! ### The three retrieval tools (src/agent.py lines 51-122)

Each `@tool` function logs, calls one external backend inside `try`, and in
`except` logs the failure and re-raises with a bare `raise`. The backend call
is a collaborator; each embedding below is a function of that call's outcome.
`loggerBound` says whether the name `logger` is bound when the tool runs: the
first `logger.info` stands before the `try`, so with `logger` unbound (as in
the module as written, which never binds it) the call raises `NameError`
before the backend is reached. -/

/-- A Python runtime value, as far as the tools' return values need: a `str`,
a `dict`, or the response object `client.responses.create` returns (carried
with its payload). -/
inductive PyVal where
  | str (s : String)
  | dict (entries : List (String × PyVal))
  | respObj (data : String)

/-- Whether the value is a Python `str`. -/
def PyVal.isStr : PyVal → Bool
  | .str _ => true
  | _ => false

/-- Embedding of `search_engine_openai` (src/agent.py lines 51-71): logs,
then returns the raw response object of `client.responses.create` on
success; on a backend exception it logs and re-raises it. -/
def search_engine_openai (loggerBound : Bool) (query : String)
    (backend : Except String String) : Except PyErr PyVal :=
  if loggerBound = false then .error (.nameError "logger")
  else
    match backend with
    | .ok response => .ok (.respObj response)
    | .error e => .error (.raised e)

/-- Embedding of `search_engine_duckduckgo` (src/agent.py lines 73-90):
logs, then returns the string `DuckDuckGoSearchRun().run(query)` yields on
success; on a backend exception it logs and re-raises it. -/
def search_engine_duckduckgo (loggerBound : Bool) (query : String)
    (backend : Except String String) : Except PyErr PyVal :=
  if loggerBound = false then .error (.nameError "logger")
  else
    match backend with
    | .ok response => .ok (.str response)
    | .error e => .error (.raised e)

/-- One element of `completion.choices` in `exa_search`: its message's
content and citations. -/
structure ExaChoice where
  content : String
  citations : String
deriving DecidableEq, Repr

/-- Embedding of `exa_search` (src/agent.py lines 92-122): logs, then on
success builds `info_dict` with the first choice's content and citations (or
the fallback texts when `completion.choices` is empty) and returns that
dict; on a backend exception it logs and re-raises it. -/
def exa_search (loggerBound : Bool) (query : String)
    (backend : Except String (List ExaChoice)) : Except PyErr PyVal :=
  if loggerBound = false then .error (.nameError "logger")
  else
    match backend with
    | .ok choices =>
        .ok (.dict
          [("content", .str (match choices.head? with
              | some c => c.content
              | none => "No content found.")),
           ("citations", .str (match choices.head? with
              | some c => c.citations
              | none => "No citations found."))])
    | .error e => .error (.raised e)

/-! ### The six agents and the supervisor's agent list -/

/-- The two `ChatOpenAI` engine bindings of src/agent.py: `llm`
(model "gpt-4.1", lines 25-32) and `llm_o3` (model "o3", lines 34-37). -/
inductive Engine where
  | llm
  | llm_o3
deriving DecidableEq, Repr

/-- An agent built by `create_react_agent`: the engine binding passed as
`model`, the tool names passed as `tools` (in source order), the registered
`name`, and the `prompt` literal. -/
structure AgentSpec where
  model : Engine
  tools : List String
  name : String
  prompt : PromptSrc

/-- src/agent.py lines 158-163. -/
def sorting_supervisor_agent : AgentSpec :=
  { model := .llm
    tools := ["search_engine_duckduckgo", "exa_search", "search_engine_openai"]
    name := "sorting_supervisor"
    prompt := sorting_supervisor_prompt }

/-- src/agent.py lines 196-201. -/
def sorting_engineer_agent : AgentSpec :=
  { model := .llm
    tools := ["search_engine_duckduckgo", "exa_search", "search_engine_openai"]
    name := "sorting_engineer"
    prompt := sorting_engineer_prompt }

/-- src/agent.py lines 225-230. -/
def chlorine_reduction_specialist_agent : AgentSpec :=
  { model := .llm
    tools := ["search_engine_duckduckgo", "exa_search", "search_engine_openai"]
    name := "chlorine_reduction_specialist"
    prompt := chlorine_reduction_specialist_prompt }

/-- src/agent.py lines 258-263. -/
def shredding_purification_technician_agent : AgentSpec :=
  { model := .llm
    tools := ["search_engine_duckduckgo", "exa_search", "search_engine_openai"]
    name := "shredding_purification_technician"
    prompt := shredding_purification_technician_prompt }

/-- src/agent.py lines 311-316: bound to `llm_o3` and to the single tool
`search_engine_openai`. -/
def R4_process_engineer_agent : AgentSpec :=
  { model := .llm_o3
    tools := ["search_engine_openai"]
    name := "R4_process_engineer"
    prompt := R4_process_engineer_prompt }

/-- src/agent.py lines 354-359. -/
def water_bath_process_engineer_agent : AgentSpec :=
  { model := .llm_o3
    tools := ["search_engine_openai", "search_engine_duckduckgo", "exa_search"]
    name := "water_bath_process_engineer"
    prompt := water_bath_process_engineer_prompt }

/-- The agent list handed to `create_supervisor` (src/agent.py line 393), in
the order the source writes it. -/
def process_engineer_workflow_agents : List AgentSpec :=
  [sorting_engineer_agent, sorting_supervisor_agent,
   chlorine_reduction_specialist_agent,
   shredding_purification_technician_agent, R4_process_engineer_agent,
   water_bath_process_engineer_agent]

/-! ### The pydantic model FuelComposition (src/agent.py lines 42-47) -/

/-- The pydantic model `FuelComposition`: its five fields, in declaration
order. The source types them `float`; values are carried as rationals (no
arithmetic on them occurs anywhere in the source). -/
structure FuelComposition where
  calorific_value : ℚ
  moisture : ℚ
  chlorine : ℚ
  ash : ℚ
  particle_size_uniformity : ℚ

/-- The field names of `FuelComposition`, in declaration order. -/
def FuelComposition.fieldNames : List String :=
  ["calorific_value", "moisture", "chlorine", "ash",
   "particle_size_uniformity"]

/-- The five property rows the Output section of the R4 prompt demands
(src/agent.py lines 296-301), in order. -/
def R4_output_rows : List String :=
  ["1) Moisture:", "2) Chlorine (Cl):", "3) Ash Content:",
   "4) Calorific value (in MJ/kg):", "5) particle size uniformity:"]


/-! ### Theorems -/

/-- C1: in every environment — whether or not OPENAI_API_KEY is set —
evaluating the module src/agent.py raises a NameError before `app_workflow`
is constructed: with the key unset the guard's `logger.error` call hits the
never-bound name `logger`; with the key set the f-string prompt
`sorting_supervisor_prompt` hits the undefined name `place`. No statement of
the module ever binds `logger`, `place`, `r4_negative_pressure`,
`r4_temperature` or `r4_retention_time`, though the two f-string prompts
interpolate them; consequently the module never loads and no pipeline run
can ever start. -/
theorem C1_module_load_always_raises_NameError :
    (∀ keySet : Bool, ∃ n : String,
        evalModule keySet = Except.error (PyErr.nameError n)) ∧
    evalModule false = Except.error (PyErr.nameError "logger") ∧
    evalModule true = Except.error (PyErr.nameError "place") ∧
    "logger" ∉ moduleBinds ∧
    "place" ∉ moduleBinds ∧
    "r4_negative_pressure" ∉ moduleBinds ∧
    "r4_temperature" ∉ moduleBinds ∧
    "r4_retention_time" ∉ moduleBinds ∧
    sorting_supervisor_prompt.refs = List.replicate 7 "place" ∧
    R4_process_engineer_prompt.refs =
      ["r4_negative_pressure", "r4_temperature", "r4_temperature",
       "r4_retention_time", "place"] := by
  refine ⟨?_, rfl, rfl, ?_, ?_, ?_, ?_, ?_, rfl, rfl⟩
  · intro keySet
    cases keySet
    · exact ⟨"logger", rfl⟩
    · exact ⟨"place", rfl⟩
  all_goals decide

/-- C6: the claim (and each tool's own docstring) says a successful search
returns a string, but evaluated at concrete successful backend outcomes
`search_engine_openai` returns the raw response object and `exa_search`
returns a dict with keys content and citations — neither is a `str`; only
`search_engine_duckduckgo` returns a string. -/
theorem C6_success_values_not_strings :
    search_engine_openai true "rdf composition"
        (Except.ok "response-object-payload")
      = Except.ok (PyVal.respObj "response-object-payload") ∧
    (PyVal.respObj "response-object-payload").isStr = false ∧
    exa_search true "rdf composition"
        (Except.ok [⟨"exa text", "exa citations"⟩])
      = Except.ok (PyVal.dict
          [("content", PyVal.str "exa text"),
           ("citations", PyVal.str "exa citations")]) ∧
    (PyVal.dict
        [("content", PyVal.str "exa text"),
         ("citations", PyVal.str "exa citations")]).isStr = false ∧
    search_engine_duckduckgo true "rdf composition" (Except.ok "ddg results")
      = Except.ok (PyVal.str "ddg results") := by
  exact ⟨rfl, rfl, rfl, rfl, rfl⟩

/-- C7 counterexample: the R4 process engineer agent, a Worker of the
pipeline, is bound to exactly one retrieval tool (`search_engine_openai`),
so its tool_set does not contain at least two independently-implemented
backends. -/
theorem C7_R4_agent_single_backend :
    R4_process_engineer_agent ∈ process_engineer_workflow_agents ∧
    R4_process_engineer_agent.tools = ["search_engine_openai"] ∧
    ¬ 2 ≤ R4_process_engineer_agent.tools.length := by
  refine ⟨?_, rfl, by decide⟩
  exact List.Mem.tail _ (List.Mem.tail _ (List.Mem.tail _
    (List.Mem.tail _ (List.Mem.head _))))

/-- C7 (amended): five of the six Workers are each bound to three retrieval
backends, but the R4 process engineer is bound to exactly one, so that one
Worker has no fallback backend. -/
theorem C7_tool_set_sizes :
    sorting_supervisor_agent.tools.length = 3 ∧
    sorting_engineer_agent.tools.length = 3 ∧
    chlorine_reduction_specialist_agent.tools.length = 3 ∧
    shredding_purification_technician_agent.tools.length = 3 ∧
    water_bath_process_engineer_agent.tools.length = 3 ∧
    R4_process_engineer_agent.tools.length = 1 ∧
    process_engineer_workflow_agents.length = 6 := by
  exact ⟨rfl, rfl, rfl, rfl, rfl, rfl, rfl⟩

/-- C8: a failing backend call inside any of the three tools is never
swallowed. With `logger` bound, the `except` block re-raises the original
exception, so the caller sees exactly the backend's failure; with `logger`
unbound (the module as written never binds it) the call fails with a
NameError before the backend is reached. In no case does a failing call
return a success value. -/
theorem C8_backend_failure_propagates :
    ∀ (query e : String),
      search_engine_openai true query (Except.error e)
        = Except.error (PyErr.raised e) ∧
      search_engine_duckduckgo true query (Except.error e)
        = Except.error (PyErr.raised e) ∧
      exa_search true query (Except.error e)
        = Except.error (PyErr.raised e) ∧
      search_engine_openai false query (Except.error e)
        = Except.error (PyErr.nameError "logger") ∧
      search_engine_duckduckgo false query (Except.error e)
        = Except.error (PyErr.nameError "logger") ∧
      exa_search false query (Except.error e)
        = Except.error (PyErr.nameError "logger") := by
  intro query e
  exact ⟨rfl, rfl, rfl, rfl, rfl, rfl⟩

set_option maxRecDepth 8000 in
/-- C9: the fuel-property record of the code, `FuelComposition`, has exactly
the five fields moisture, chlorine, ash, calorific value and particle-size
uniformity (no `categories` mapping); the final literal segment of the R4
(thermal-conversion) prompt demands an output table of exactly those five
properties, each row occurring verbatim in it; and the water-bath (cooling)
prompt works on those same fuel properties. -/
theorem C9_fuel_property_record_schema :
    FuelComposition.fieldNames.Perm
      ["moisture", "chlorine", "ash", "calorific_value",
       "particle_size_uniformity"] ∧
    FuelComposition.fieldNames.length = 5 ∧
    "categories" ∉ FuelComposition.fieldNames ∧
    R4_output_rows.length = 5 ∧
    R4_process_engineer_prompt_segs.getLast?
      = some (.lit R4_process_engineer_prompt_seg6) ∧
    containsSub R4_process_engineer_prompt_seg6 "1) Moisture:" = true ∧
    containsSub R4_process_engineer_prompt_seg6 "2) Chlorine (Cl):" = true ∧
    containsSub R4_process_engineer_prompt_seg6 "3) Ash Content:" = true ∧
    containsSub R4_process_engineer_prompt_seg6
      "4) Calorific value (in MJ/kg):" = true ∧
    containsSub R4_process_engineer_prompt_seg6
      "5) particle size uniformity:" = true ∧
    containsSub water_bath_process_engineer_prompt_text
      "moisture content, chlorine content, ash content, calorific value"
      = true ∧
    containsSub water_bath_process_engineer_prompt_text
      "particle size uniformity" = true := by
  refine ⟨by decide, rfl, by decide, rfl, rfl, rfl, rfl, rfl, rfl, rfl,
    ?_, ?_⟩
  · exact containsSub_append_of_right water_bath_process_engineer_prompt_part1
      water_bath_process_engineer_prompt_part2 _ rfl
  · exact containsSub_append_of_right water_bath_process_engineer_prompt_part1
      water_bath_process_engineer_prompt_part2 _ rfl

set_option maxRecDepth 8000 in
/-- C10: the four prompts of the mechanical-sorting, chlorine-reduction,
shredding and cooling (water-bath) stages are plain string literals, not
f-strings: under every environment each evaluates to its own literal text,
which contains the placeholder text for `place` verbatim; by contrast the
bulky-item-removal (sorting supervisor) and thermal-conversion (R4) prompts
are f-strings. -/
theorem C10_four_prompts_deliver_place_placeholder_verbatim :
    ∀ env : String → Option String,
      (sorting_engineer_prompt.isFString = false ∧
       sorting_engineer_prompt.eval env
         = Except.ok sorting_engineer_prompt_text ∧
       containsSub sorting_engineer_prompt_text "{place}" = true) ∧
      (chlorine_reduction_specialist_prompt.isFString = false ∧
       chlorine_reduction_specialist_prompt.eval env
         = Except.ok chlorine_reduction_specialist_prompt_text ∧
       containsSub chlorine_reduction_specialist_prompt_text "{place}"
         = true) ∧
      (shredding_purification_technician_prompt.isFString = false ∧
       shredding_purification_technician_prompt.eval env
         = Except.ok shredding_purification_technician_prompt_text ∧
       containsSub shredding_purification_technician_prompt_text "{place}"
         = true) ∧
      (water_bath_process_engineer_prompt.isFString = false ∧
       water_bath_process_engineer_prompt.eval env
         = Except.ok water_bath_process_engineer_prompt_text ∧
       containsSub water_bath_process_engineer_prompt_text "{place}"
         = true) ∧
      sorting_supervisor_prompt.isFString = true ∧
      R4_process_engineer_prompt.isFString = true := by
  intro env
  refine ⟨⟨rfl, rfl, ?_⟩, ⟨rfl, rfl, ?_⟩, ⟨rfl, rfl, ?_⟩, ⟨rfl, rfl, ?_⟩,
    rfl, rfl⟩
  · exact containsSub_append_of_right sorting_engineer_prompt_part1
      sorting_engineer_prompt_part2 _ rfl
  · exact containsSub_append_of_right chlorine_reduction_specialist_prompt_part1
      chlorine_reduction_specialist_prompt_part2 _ rfl
  · exact containsSub_append_of_right
      shredding_purification_technician_prompt_part1
      shredding_purification_technician_prompt_part2 _ rfl
  · exact containsSub_append_of_right water_bath_process_engineer_prompt_part1
      water_bath_process_engineer_prompt_part2 _ rfl

end MswRdf



